import Mathlib

/-!
Shallow embedding of the Shopify App Store dashboard (src/app.py): the
navigation state machine kept in the session state, and the metrics-engine
operations (filters, aggregates, top-N selection, quadrant split, segment
grouping) that the overview and detail views apply to the loaded table.
Floats of the source table are modelled as rationals; a pandas DataFrame is
modelled as a list of rows; pandas operations that can raise (`.iloc[0]` on
an empty frame) or return NaN (mean of an empty column) are modelled as
Option-valued functions.
-/

namespace App

/-- One row of the loaded query1 table: one app-store feature category
(spec section 3, Category Record; the column names of app.py). -/
structure Row where
  featureCategory : String
  strategicSegment : String
  demandLevel : String
  qualitySeverity : ℚ
  merchantImpact : ℚ
  businessPriority : ℚ
  priorityLevel : ℕ
  currentAvgRating : ℚ
  qualityVsMedian : ℚ
  estMerchantsAffected : ℚ
  predictedChurnPct : ℚ
deriving DecidableEq, Repr

/-- The loaded table (df_q1 in app.py). -/
abbrev Table := List Row

/-- The view discriminator held in st.session_state.current_view
(app.py uses the strings 'main', 'segment_detail', 'category_detail'). -/
inductive View where
  | main
  | segment_detail
  | category_detail
deriving DecidableEq, Repr

/-- The session navigation state (app.py lines 78-85): current_view,
selected_segment, selected_category and the tab-1 hero-metric drill-down
selection clicked_metric_tab1. -/
structure NavState where
  current_view : View
  selected_segment : Option String
  selected_category : Option String
  clicked_metric_tab1 : Option String
deriving DecidableEq, Repr

/-- Session-state initialization (app.py lines 78-85): view 'main',
no segment, no category, no drill-down selection. -/
def initState : NavState :=
  { current_view := View.main
    selected_segment := none
    selected_category := none
    clicked_metric_tab1 := none }

/-- Segment selector button handler (app.py lines 874-879): unconditionally
sets current_view to 'segment_detail' and selected_segment to the clicked
segment, then reruns. -/
def select_segment (seg : String) (s : NavState) : NavState :=
  { s with current_view := View.segment_detail, selected_segment := some seg }

/-- Category drill-in handlers (app.py lines 503-506, 1106-1109, 1159-1162):
unconditionally set current_view to 'category_detail' and selected_category
to the chosen category, then rerun. No guard checks the name against the
table. -/
def select_category (cat : String) (s : NavState) : NavState :=
  { s with current_view := View.category_detail, selected_category := some cat }

/-- The Back-to-Overview button handler (app.py lines 368-373): resets
current_view to 'main' and clears selected_segment and selected_category.
It does not touch clicked_metric_tab1. -/
def back_to_overview (s : NavState) : NavState :=
  { s with
      current_view := View.main
      selected_segment := none
      selected_category := none }

/-- The tab-1 drill-down section chosen by the dispatch chain at app.py
lines 462, 541, 603, 665 (on the string stored in clicked_metric_tab1). -/
inductive Drilldown where
  | urgent
  | severity
  | demand
  | affected
deriving DecidableEq, Repr

/-- Which hero-metric drill-down section the Overview renders, per the
if/elif dispatch on st.session_state.clicked_metric_tab1
(app.py lines 462, 541, 603, 665). -/
def overview_drilldown (s : NavState) : Option Drilldown :=
  if s.clicked_metric_tab1 = some "urgent" then some Drilldown.urgent
  else if s.clicked_metric_tab1 = some "severity" then some Drilldown.severity
  else if s.clicked_metric_tab1 = some "demand" then some Drilldown.demand
  else if s.clicked_metric_tab1 = some "affected" then some Drilldown.affected
  else none

/-- Boolean-mask row filtering, df[pred] in pandas (spec name filter_by):
keeps the rows satisfying the predicate in source order. -/
def filter_by (p : Row → Bool) (T : Table) : Table :=
  T.filter p

/-- app.py line 424: df_q1[df_q1['Priority Level (1-5)'].isin([1, 2, 3])]. -/
def urgent_and_high (T : Table) : Table :=
  filter_by (fun r => r.priorityLevel == 1 || r.priorityLevel == 2 || r.priorityLevel == 3) T

/-- app.py line 425: df_q1[df_q1['Quality Severity (0-100)'] >= 50]. -/
def high_severity (T : Table) : Table :=
  filter_by (fun r => decide (r.qualitySeverity ≥ 50)) T

/-- app.py line 431: df_q1[df_q1['Demand Level'] == 'Very High']. -/
def very_high_demand (T : Table) : Table :=
  filter_by (fun r => r.demandLevel == "Very High") T

/-- app.py line 439: df_q1[df_q1['Quality vs Median'] < 0]. -/
def quality_gap_df (T : Table) : Table :=
  filter_by (fun r => decide (r.qualityVsMedian < 0)) T

/-- Column sum over a table slice (pandas .sum(); sum of an empty column
is 0). -/
def col_sum (f : Row → ℚ) (T : Table) : ℚ :=
  (T.map f).sum

/-- Row count of a table slice (pandas len / .count()). -/
def col_count (T : Table) : ℕ :=
  T.length

/-- Column mean over a table slice (pandas .mean()): NaN on an empty
column, modelled as none; otherwise sum divided by count. -/
def col_mean (f : Row → ℚ) (T : Table) : Option ℚ :=
  if T.isEmpty then none else some (col_sum f T / (col_count T : ℚ))

/-- app.py line 687: quality_gap_df['Quality vs Median'].mean(). -/
def avg_gap (T : Table) : Option ℚ :=
  col_mean Row.qualityVsMedian (quality_gap_df T)

/-- The row lookup of render_category_detail (app.py line 244):
df[df['Feature Category'] == category].iloc[0]. The .iloc[0] access
raises IndexError when the filtered frame is empty, modelled as none. -/
def category_row (T : Table) (category : String) : Option Row :=
  (T.filter (fun r => r.featureCategory == category)).head?

/-- Membership test of quadrant 1 (app.py lines 786-787): severity >=
threshold and impact >= threshold. -/
def inQ1 (sevT impT : ℚ) (r : Row) : Bool :=
  decide (r.qualitySeverity ≥ sevT) && decide (r.merchantImpact ≥ impT)

/-- Membership test of quadrant 2 (app.py lines 788-789): severity >=
threshold and impact < threshold. -/
def inQ2 (sevT impT : ℚ) (r : Row) : Bool :=
  decide (r.qualitySeverity ≥ sevT) && decide (r.merchantImpact < impT)

/-- Membership test of quadrant 3 (app.py lines 790-791): severity <
threshold and impact < threshold. -/
def inQ3 (sevT impT : ℚ) (r : Row) : Bool :=
  decide (r.qualitySeverity < sevT) && decide (r.merchantImpact < impT)

/-- Membership test of quadrant 4 (app.py lines 792-793): severity <
threshold and impact >= threshold. -/
def inQ4 (sevT impT : ℚ) (r : Row) : Bool :=
  decide (r.qualitySeverity < sevT) && decide (r.merchantImpact ≥ impT)

/-- The q1 slice of app.py lines 786-787 (its length is the displayed q1). -/
def quadrant1 (T : Table) (sevT impT : ℚ) : Table := T.filter (inQ1 sevT impT)

/-- The q2 slice of app.py lines 788-789. -/
def quadrant2 (T : Table) (sevT impT : ℚ) : Table := T.filter (inQ2 sevT impT)

/-- The q3 slice of app.py lines 790-791. -/
def quadrant3 (T : Table) (sevT impT : ℚ) : Table := T.filter (inQ3 sevT impT)

/-- The q4 slice of app.py lines 792-793. -/
def quadrant4 (T : Table) (sevT impT : ℚ) : Table := T.filter (inQ4 sevT impT)

/-- Modelled from the spec (section 3): the business-priority formula
0.4 * quality_severity + 0.6 * merchant_impact. The value is computed
upstream of src/app.py (in the source CSV); app.py only documents the
40 percent / 60 percent weighting (lines 359, 413-414, 956). -/
def business_priority (quality_severity merchant_impact : ℚ) : ℚ :=
  0.4 * quality_severity + 0.6 * merchant_impact

/-- Stable descending insertion: places x before the first element whose
key is at most key x, so an element keeps its place ahead of later rows
with an equal key. -/
def insertDesc {α : Type} (key : α → ℚ) (x : α) : List α → List α
  | [] => [x]
  | y :: ys => if key y ≤ key x then x :: y :: ys else y :: insertDesc key x ys

/-- Stable descending sort by a rational key: the order relation pandas
nlargest uses with its default keep-first tie policy. -/
def sortDesc {α : Type} (key : α → ℚ) : List α → List α
  | [] => []
  | x :: xs => insertDesc key x (sortDesc key xs)

/-- pandas DataFrame.nlargest(n, column) (app.py lines 919, 1057, 1114):
the first n rows of the stable descending sort by the column; ties keep
first-seen rows. -/
def nlargest (n : ℕ) (key : Row → ℚ) (T : Table) : Table :=
  (sortDesc key T).take n

/-- app.py line 919: df_q1.nlargest(25, 'Business Priority (0-100)'). -/
def heatmap_df (T : Table) : Table :=
  nlargest 25 Row.businessPriority T

/-- app.py lines 1057-1059: the Business Priority top-10 bar chart input,
df_q1[df_q1['Business Priority (0-100)'] > 0].nlargest(10, ...). -/
def problems_df (T : Table) : Table :=
  nlargest 10 Row.businessPriority
    (filter_by (fun r => decide (r.businessPriority > 0)) T)

/-- app.py lines 841-842: df_q1['Strategic Segment'].value_counts(): one
entry per distinct raw segment label, with the number of rows carrying
that label. -/
def segment_counts (T : Table) : List (String × ℕ) :=
  (T.map Row.strategicSegment).dedup.map
    (fun s => (s, T.countP (fun r => r.strategicSegment == s)))

/-- app.py line 868: the segment labels sorted by count descending — the
list the segment selector buttons are generated from. -/
def segments_sorted (T : Table) : List String :=
  (sortDesc (fun p => ((p.2 : ℚ))) (segment_counts T)).map Prod.fst

/-- app.py lines 149-153: the empty-segment guard of render_segment_detail,
true exactly when the segment filter yields no rows (the warning branch). -/
def render_segment_detail_empty (T : Table) (segment : String) : Bool :=
  (filter_by (fun r => r.strategicSegment == segment) T).length == 0

/-- app.py lines 130-143: the fixed segment-to-color map of
get_segment_color, defaulting to gray for unknown labels. -/
def get_segment_color (segment : String) : String :=
  if segment = "Critical Quality Gap" then "#C0392B"
  else if segment = "Below Standard Performance" then "#E67E22"
  else if segment = "Meeting Expectations" then "#27AE60"
  else if segment = "High Demand, Quality Gap" then "#E74C3C"
  else if segment = "High Demand, Minor Gap" then "#F39C12"
  else if segment = "High Demand, Good Quality" then "#52BE80"
  else if segment = "Underutilized Quality" then "#3498DB"
  else if segment = "Low Demand, Quality Gap" then "#95A5A6"
  else if segment = "Monitor" then "#BDC3C7"
  else "#95A5A6"

/-- Follows the spec's words (section 3): "Meeting Expectations" and
"High Demand, Good Quality" are synonymous labels denoting the same
segment, folded to one canonical label before grouping or display. Stated
from the spec so it can be compared against the source's grouping, which
applies no such map. -/
def canonicalize_segment_spec (label : String) : String :=
  if label = "Meeting Expectations" then "High Demand, Good Quality" else label

-- ===========================================================================
-- Sample data used by witnesses and counterexamples
-- ===========================================================================

/-- A concrete Category Record used as a witness input. -/
def sampleRow : Row :=
  { featureCategory := "Email Marketing"
    strategicSegment := "Below Standard Performance"
    demandLevel := "Very High"
    qualitySeverity := 80
    merchantImpact := 50
    businessPriority := 62
    priorityLevel := 1
    currentAvgRating := 4.2
    qualityVsMedian := -0.2
    estMerchantsAffected := 12000
    predictedChurnPct := 5.5 }

/-- A second concrete Category Record used as a witness input. -/
def sampleRow2 : Row :=
  { featureCategory := "Page Builder"
    strategicSegment := "Meeting Expectations"
    demandLevel := "High"
    qualitySeverity := 30
    merchantImpact := 70
    businessPriority := 54
    priorityLevel := 4
    currentAvgRating := 4.7
    qualityVsMedian := 0.1
    estMerchantsAffected := 8000
    predictedChurnPct := 1.5 }

/-- A concrete two-row table used as a witness input. -/
def sampleTable : Table := [sampleRow, sampleRow2]

/-- A two-row table whose rows carry the spec's synonym pair of segment
labels, one row each. -/
def synonymTable : Table :=
  [{ sampleRow with strategicSegment := "Meeting Expectations" },
   { sampleRow2 with strategicSegment := "High Demand, Good Quality" }]

-- ===========================================================================
-- C2: select_segment then back round-trips to the initial overview state
-- ===========================================================================

/-- C2: the navigation state starts as (Overview, null, null); from Overview,
select_segment for a segment present in the table moves to SegmentDetail
with that segment selected (and no category selected); a subsequent back
action returns the state exactly to (Overview, null, null). -/
theorem select_segment_back_roundtrip (T : Table) (seg : String)
    (hseg : seg ∈ T.map Row.strategicSegment) :
    initState.current_view = View.main
      ∧ initState.selected_segment = none
      ∧ initState.selected_category = none
      ∧ select_segment seg initState
          = { current_view := View.segment_detail
              selected_segment := some seg
              selected_category := none
              clicked_metric_tab1 := none }
      ∧ back_to_overview (select_segment seg initState) = initState :=
  ⟨rfl, rfl, rfl, rfl, rfl⟩

/-- C2 witness: the round-trip at the concrete segment
"Below Standard Performance" of the sample table. -/
theorem select_segment_back_roundtrip_witness :
    back_to_overview (select_segment "Below Standard Performance" initState)
      = initState :=
  (select_segment_back_roundtrip sampleTable "Below Standard Performance"
    (by decide)).2.2.2.2

-- ===========================================================================
-- C10: back resets only the three navigation fields and preserves the
-- hero-metric drill-down selection
-- ===========================================================================

/-- C10: the back action resets only current_view, selected_segment and
selected_category; clicked_metric_tab1 is left unchanged, so the Overview
renders the same hero-metric drill-down section after back as before. -/
theorem back_preserves_drilldown (s : NavState) :
    (back_to_overview s).clicked_metric_tab1 = s.clicked_metric_tab1
      ∧ (back_to_overview s).current_view = View.main
      ∧ (back_to_overview s).selected_segment = none
      ∧ (back_to_overview s).selected_category = none
      ∧ overview_drilldown (back_to_overview s) = overview_drilldown s :=
  ⟨rfl, rfl, rfl, rfl, rfl⟩

-- ===========================================================================
-- C8: the business-priority formula at quality_severity 80, merchant
-- impact 50 gives 62
-- ===========================================================================

/-- C8: for every Category Record, the business-priority weighting is the
fixed combination 0.4 * quality_severity + 0.6 * merchant_impact; a record
with quality_severity 80 and merchant_impact 50 gets business priority 62. -/
theorem business_priority_weighted (r : Row)
    (hq : r.qualitySeverity = 80) (hm : r.merchantImpact = 50) :
    business_priority r.qualitySeverity r.merchantImpact
        = 0.4 * r.qualitySeverity + 0.6 * r.merchantImpact
      ∧ business_priority r.qualitySeverity r.merchantImpact = 62 := by
  refine ⟨rfl, ?_⟩
  rw [hq, hm]
  norm_num [business_priority]

/-- C8 witness: the sample record has quality_severity 80 and
merchant_impact 50, and its business priority evaluates to 62. -/
theorem business_priority_weighted_witness :
    business_priority sampleRow.qualitySeverity sampleRow.merchantImpact = 62 :=
  (business_priority_weighted sampleRow (by decide) (by decide)).2

-- ===========================================================================
-- C1: select_category on an unknown name is NOT rejected (corrected)
-- ===========================================================================

/-- C1 counterexample: the claim says a select_category transition with a
name not in the table leaves the navigation state unchanged; in app.py the
handler is unguarded, so from the initial state the transition with
"Nonexistent Category" (absent from the sample table) changes the state. -/
theorem select_category_unknown_changes_state :
    "Nonexistent Category" ∉ sampleTable.map Row.featureCategory
      ∧ select_category "Nonexistent Category" initState ≠ initState := by
  refine ⟨by decide, ?_⟩
  intro h
  exact View.noConfusion (congrArg NavState.current_view h)

/-- C1 amended: select_category is unguarded: for any category name, known
or not, it moves the view to CategoryDetail and overwrites
selected_category; for a name absent from the table the subsequent
category-detail render finds no matching row (the .iloc[0] access has
nothing to return, i.e. raises IndexError) instead of showing a message
with the state unchanged. -/
theorem select_category_unguarded (T : Table) (cat : String) (s : NavState)
    (h : cat ∉ T.map Row.featureCategory) :
    select_category cat s
        = { current_view := View.category_detail
            selected_segment := s.selected_segment
            selected_category := some cat
            clicked_metric_tab1 := s.clicked_metric_tab1 }
      ∧ category_row T cat = none := by
  refine ⟨rfl, ?_⟩
  have hnil : T.filter (fun r => r.featureCategory == cat) = [] := by
    refine List.filter_eq_nil_iff.mpr ?_
    intro r hr hbeq
    exact h (List.mem_map.mpr ⟨r, hr, (beq_iff_eq.mp hbeq)⟩)
  simp [category_row, hnil]

/-- C1 amended witness: at the sample table and the concrete name
"Nonexistent Category", the unguarded transition fires and the
category-detail row lookup comes back empty. -/
theorem select_category_unguarded_witness :
    category_row sampleTable "Nonexistent Category" = none :=
  (select_category_unguarded sampleTable "Nonexistent Category" initState
    (by decide)).2

-- ===========================================================================
-- C6: aggregates on an empty slice return the empty-result sentinel
-- ===========================================================================

/-- C6: count, sum and mean applied to an empty filtered slice return the
defined empty-result values (count 0, sum 0, mean NaN modelled as none);
all three are total functions of the slice, so no exception is raised. In
particular the avg_gap mean of app.py line 687 is the NaN sentinel when no
row is below the quality median. -/
theorem empty_slice_aggregates (p : Row → Bool) (f : Row → ℚ) (T : Table)
    (h : filter_by p T = []) :
    col_count (filter_by p T) = 0
      ∧ col_sum f (filter_by p T) = 0
      ∧ col_mean f (filter_by p T) = none := by
  rw [h]
  exact ⟨rfl, rfl, rfl⟩

/-- C6 witness: filtering the sample table by quality_severity greater than
1000 yields the empty slice, and its mean is the sentinel none. -/
theorem empty_slice_aggregates_witness :
    col_mean Row.qualitySeverity
        (filter_by (fun r => decide (r.qualitySeverity > 1000)) sampleTable)
      = none :=
  (empty_slice_aggregates (fun r => decide (r.qualitySeverity > 1000))
    Row.qualitySeverity sampleTable (by decide)).2.2

-- ===========================================================================
-- Helper lemmas about the stable descending sort
-- ===========================================================================

theorem insertDesc_length {α : Type} (key : α → ℚ) (x : α) (l : List α) :
    (insertDesc key x l).length = l.length + 1 := by
  induction l with
  | nil => rfl
  | cons y ys ih =>
    by_cases hc : key y ≤ key x <;> simp [insertDesc, hc, ih]

theorem sortDesc_length {α : Type} (key : α → ℚ) (l : List α) :
    (sortDesc key l).length = l.length := by
  induction l with
  | nil => rfl
  | cons x xs ih => simp [sortDesc, insertDesc_length, ih]

theorem insertDesc_perm {α : Type} (key : α → ℚ) (x : α) (l : List α) :
    List.Perm (insertDesc key x l) (x :: l) := by
  induction l with
  | nil => exact List.Perm.refl [x]
  | cons y ys ih =>
    by_cases hc : key y ≤ key x
    · simp [insertDesc, hc]
    · rw [insertDesc, if_neg hc]
      exact (ih.cons y).trans (List.Perm.swap x y ys)

theorem sortDesc_perm {α : Type} (key : α → ℚ) (l : List α) :
    List.Perm (sortDesc key l) l := by
  induction l with
  | nil => exact List.Perm.refl []
  | cons x xs ih =>
    exact (insertDesc_perm key x (sortDesc key xs)).trans (ih.cons x)

theorem insertDesc_pairwise {α : Type} (key : α → ℚ) (x : α) (l : List α)
    (h : l.Pairwise (fun a b => key b ≤ key a)) :
    (insertDesc key x l).Pairwise (fun a b => key b ≤ key a) := by
  induction l with
  | nil => simp [insertDesc]
  | cons y ys ih =>
    rcases List.pairwise_cons.mp h with ⟨hy, hys⟩
    by_cases hc : key y ≤ key x
    · rw [insertDesc, if_pos hc]
      refine List.pairwise_cons.mpr ⟨?_, h⟩
      intro z hz
      rcases List.mem_cons.mp hz with rfl | hz'
      · exact hc
      · exact le_trans (hy z hz') hc
    · rw [insertDesc, if_neg hc]
      have hxy : key x ≤ key y := le_of_lt (not_le.mp hc)
      refine List.pairwise_cons.mpr ⟨?_, ih hys⟩
      intro z hz
      rcases List.mem_cons.mp ((insertDesc_perm key x ys).mem_iff.mp hz)
        with rfl | hz'
      · exact hxy
      · exact hy z hz'

theorem sortDesc_pairwise {α : Type} (key : α → ℚ) (l : List α) :
    (sortDesc key l).Pairwise (fun a b => key b ≤ key a) := by
  induction l with
  | nil => simp [sortDesc]
  | cons x xs ih => exact insertDesc_pairwise key x (sortDesc key xs) ih

theorem insertDesc_filter_key {α : Type} (key : α → ℚ) (q : ℚ) (x : α)
    (l : List α) :
    (insertDesc key x l).filter (fun r => key r == q)
      = (x :: l).filter (fun r => key r == q) := by
  induction l with
  | nil => rfl
  | cons y ys ih =>
    by_cases hc : key y ≤ key x
    · rw [insertDesc, if_pos hc]
    · rw [insertDesc, if_neg hc]
      have hlt : key x < key y := not_le.mp hc
      by_cases hy : key y = q
      · have hx : ¬ key x = q := fun hx => absurd (hx.trans hy.symm) (ne_of_lt hlt)
        simp [List.filter_cons, hy, hx, ih]
      · simp [List.filter_cons, hy, ih]

theorem sortDesc_filter_key {α : Type} (key : α → ℚ) (q : ℚ) (l : List α) :
    (sortDesc key l).filter (fun r => key r == q)
      = l.filter (fun r => key r == q) := by
  induction l with
  | nil => rfl
  | cons x xs ih =>
    rw [sortDesc, insertDesc_filter_key, List.filter_cons, List.filter_cons, ih]

/-- The keys of segment_counts are exactly the distinct raw segment labels
of the table. -/
theorem segment_counts_keys (T : Table) :
    (segment_counts T).map Prod.fst = (T.map Row.strategicSegment).dedup := by
  simp [segment_counts, List.map_map, Function.comp_def]

/-- Every row falls in exactly one of the four quadrant predicates of
app.py lines 786-793. -/
theorem inQ_cases (sevT impT : ℚ) (r : Row) :
    (inQ1 sevT impT r = true ∧ inQ2 sevT impT r = false
        ∧ inQ3 sevT impT r = false ∧ inQ4 sevT impT r = false)
      ∨ (inQ1 sevT impT r = false ∧ inQ2 sevT impT r = true
        ∧ inQ3 sevT impT r = false ∧ inQ4 sevT impT r = false)
      ∨ (inQ1 sevT impT r = false ∧ inQ2 sevT impT r = false
        ∧ inQ3 sevT impT r = true ∧ inQ4 sevT impT r = false)
      ∨ (inQ1 sevT impT r = false ∧ inQ2 sevT impT r = false
        ∧ inQ3 sevT impT r = false ∧ inQ4 sevT impT r = true) := by
  by_cases h1 : sevT ≤ r.qualitySeverity <;> by_cases h2 : impT ≤ r.merchantImpact
  · exact Or.inl (by
      simp [inQ1, inQ2, inQ3, inQ4, ge_iff_le, h1, h2, not_lt.mpr h1, not_lt.mpr h2])
  · refine Or.inr (Or.inl ?_)
    simp [inQ1, inQ2, inQ3, inQ4, ge_iff_le, h1, h2, not_lt.mpr h1, not_le.mp h2]
  · refine Or.inr (Or.inr (Or.inr ?_))
    simp [inQ1, inQ2, inQ3, inQ4, ge_iff_le, h1, h2, not_le.mp h1, not_lt.mpr h2]
  · refine Or.inr (Or.inr (Or.inl ?_))
    simp [inQ1, inQ2, inQ3, inQ4, ge_iff_le, h1, h2, not_le.mp h1, not_le.mp h2]

-- ===========================================================================
-- C3: the quadrant split partitions the table
-- ===========================================================================

/-- C3: for every table and pair of thresholds, the quadrant split of
app.py lines 786-793 assigns every row to exactly one of the four
quadrants — each row satisfies exactly one quadrant predicate, and the
four slice sizes sum to the table size — and the comparison is inclusive
on the high side: a row sitting exactly on both thresholds lands in the
high/high quadrant q1. -/
theorem quadrant_split_partition (T : Table) (sevT impT : ℚ) :
    ((quadrant1 T sevT impT).length + (quadrant2 T sevT impT).length
        + (quadrant3 T sevT impT).length + (quadrant4 T sevT impT).length
        = T.length)
      ∧ (∀ r ∈ T, r ∈ quadrant1 T sevT impT ∨ r ∈ quadrant2 T sevT impT
          ∨ r ∈ quadrant3 T sevT impT ∨ r ∈ quadrant4 T sevT impT)
      ∧ (∀ r : Row, List.count true
          [inQ1 sevT impT r, inQ2 sevT impT r, inQ3 sevT impT r,
            inQ4 sevT impT r] = 1)
      ∧ (∀ r ∈ T, r.qualitySeverity = sevT → r.merchantImpact = impT →
          (r ∈ quadrant1 T sevT impT ∧ r ∉ quadrant2 T sevT impT
            ∧ r ∉ quadrant3 T sevT impT ∧ r ∉ quadrant4 T sevT impT)) := by
  refine ⟨?_, ?_, ?_, ?_⟩
  · induction T with
    | nil => rfl
    | cons r T ih =>
      rcases inQ_cases sevT impT r with ⟨ha, hb, hc, hd⟩ | ⟨ha, hb, hc, hd⟩
          | ⟨ha, hb, hc, hd⟩ | ⟨ha, hb, hc, hd⟩ <;>
        simp [quadrant1, quadrant2, quadrant3, quadrant4,
          List.filter_cons, ha, hb, hc, hd] at ih ⊢ <;>
        omega
  · intro r hr
    rcases inQ_cases sevT impT r with ⟨ha, _, _, _⟩ | ⟨_, hb, _, _⟩
        | ⟨_, _, hc, _⟩ | ⟨_, _, _, hd⟩
    · exact Or.inl (List.mem_filter.mpr ⟨hr, ha⟩)
    · exact Or.inr (Or.inl (List.mem_filter.mpr ⟨hr, hb⟩))
    · exact Or.inr (Or.inr (Or.inl (List.mem_filter.mpr ⟨hr, hc⟩)))
    · exact Or.inr (Or.inr (Or.inr (List.mem_filter.mpr ⟨hr, hd⟩)))
  · intro r
    rcases inQ_cases sevT impT r with ⟨ha, hb, hc, hd⟩ | ⟨ha, hb, hc, hd⟩
        | ⟨ha, hb, hc, hd⟩ | ⟨ha, hb, hc, hd⟩ <;>
      simp [ha, hb, hc, hd]
  · intro r hr hsev himp
    have ha : inQ1 sevT impT r = true := by
      simp [inQ1, ge_iff_le, hsev, himp]
    rcases inQ_cases sevT impT r with ⟨_, hb, hc, hd⟩ | ⟨h1, _, _, _⟩
        | ⟨h1, _, _, _⟩ | ⟨h1, _, _, _⟩
    · refine ⟨List.mem_filter.mpr ⟨hr, ha⟩, ?_, ?_, ?_⟩ <;>
        · intro hmem
          have := (List.mem_filter.mp hmem).2
          simp_all
    · rw [ha] at h1; exact absurd h1 (by simp)
    · rw [ha] at h1; exact absurd h1 (by simp)
    · rw [ha] at h1; exact absurd h1 (by simp)

-- ===========================================================================
-- C4: nlargest returns min(k, |T|) rows, sorted descending, stable ties
-- ===========================================================================

/-- C4: for every table, numeric key and count n, nlargest returns exactly
min(n, |T|) rows, pairwise sorted descending by the key, every returned
row is a row of T, and ties are broken by stable original order: for each
key value q, the returned rows with key q are an initial run (first-seen
rows, in source order) of the rows of T with key q. -/
theorem top_n_spec (n : ℕ) (key : Row → ℚ) (T : Table) :
    (nlargest n key T).length = min n T.length
      ∧ (nlargest n key T).Pairwise (fun a b => key b ≤ key a)
      ∧ (∀ r ∈ nlargest n key T, r ∈ T)
      ∧ (∀ q : ℚ, ∃ rest,
          (nlargest n key T).filter (fun r => key r == q) ++ rest
            = T.filter (fun r => key r == q)) := by
  refine ⟨?_, ?_, ?_, ?_⟩
  · rw [nlargest, List.length_take, sortDesc_length]
  · exact (sortDesc_pairwise key T).sublist (List.take_sublist n _)
  · intro r hr
    exact (sortDesc_perm key T).mem_iff.mp ((List.take_sublist n _).subset hr)
  · intro q
    refine ⟨((sortDesc key T).drop n).filter (fun r => key r == q), ?_⟩
    rw [nlargest, ← List.filter_append, List.take_append_drop,
      sortDesc_filter_key]

-- ===========================================================================
-- C7: filter_by keeps exactly the satisfying rows in source order
-- ===========================================================================

/-- C7: for every table and row predicate, filter_by returns the
subsequence of the table's rows satisfying the predicate, in the original
row order: the result is a sublist of T, every kept row satisfies the
predicate, and every sublist of T of satisfying rows is a sublist of the
result (so no satisfying row is dropped and none is reordered). -/
theorem filter_by_order_preserving (p : Row → Bool) (T : Table) :
    List.Sublist (filter_by p T) T
      ∧ (∀ r ∈ filter_by p T, p r = true)
      ∧ (∀ s : Table, List.Sublist s T → (∀ r ∈ s, p r = true) →
          List.Sublist s (filter_by p T)) := by
  refine ⟨List.filter_sublist T, ?_, ?_⟩
  · intro r hr
    exact (List.mem_filter.mp hr).2
  · intro s hs hp
    have hfil := hs.filter p
    rwa [List.filter_eq_self.mpr hp] at hfil

-- ===========================================================================
-- C5: segment grouping uses raw labels; no canonicalization is applied
-- ===========================================================================

/-- C5 counterexample: the spec's synonym pair "Meeting Expectations" and
"High Demand, Good Quality" fold to the same canonical label, yet on a
table holding one row of each the source's segment grouping counts them as
two separate one-row groups — the same logical segment under two labels —
and the source's color map assigns the two labels different colors. So
canonicalization is not applied where segments are counted or displayed. -/
theorem canonicalization_not_applied :
    canonicalize_segment_spec "Meeting Expectations"
        = canonicalize_segment_spec "High Demand, Good Quality"
      ∧ segment_counts synonymTable
          = [("Meeting Expectations", 1), ("High Demand, Good Quality", 1)]
      ∧ ¬ (((segment_counts synonymTable).map
            (fun p => canonicalize_segment_spec p.1)).Nodup)
      ∧ get_segment_color "Meeting Expectations"
          ≠ get_segment_color "High Demand, Good Quality" := by
  refine ⟨by decide, by decide, ?_, by decide⟩
  intro h
  have := List.pairwise_cons.mp h
  exact absurd (this.1 "High Demand, Good Quality" (by decide)) (by decide)

/-- C5 amended: app.py contains no canonicalize_segment; segments are
grouped by raw strategic_segment label (the implicit label map is the
identity, trivially idempotent), and the code's own segment glossary and
color map treat "Meeting Expectations" and "High Demand, Good Quality" as
distinct segments. Raw-label grouping does partition the table: the group
keys are pairwise distinct, every row's label is a group key, each group's
count is the size of that label's filter slice, and the counts sum to the
table size (no row ungrouped, none counted twice). -/
theorem raw_segment_grouping_partitions (T : Table) :
    ((segment_counts T).map Prod.fst).Nodup
      ∧ (∀ r ∈ T, r.strategicSegment ∈ (segment_counts T).map Prod.fst)
      ∧ (∀ s c, (s, c) ∈ segment_counts T →
          c = (filter_by (fun r => r.strategicSegment == s) T).length)
      ∧ ((segment_counts T).map Prod.snd).sum = T.length := by
  refine ⟨?_, ?_, ?_, ?_⟩
  · rw [segment_counts_keys]
    exact (T.map Row.strategicSegment).nodup_dedup
  · intro r hr
    rw [segment_counts_keys]
    exact List.mem_dedup.mpr (List.mem_map_of_mem Row.strategicSegment hr)
  · intro s c hmem
    obtain ⟨s', _, heq⟩ := List.mem_map.mp hmem
    obtain ⟨rfl, rfl⟩ := Prod.mk.injEq .. ▸ heq
    exact (List.countP_eq_length_filter ..).symm ▸ rfl
  · have hcnt : ∀ s, T.countP (fun r => r.strategicSegment == s)
        = (T.map Row.strategicSegment).count s := by
      intro s
      rw [List.count_eq_countP, List.countP_map]
      rfl
    calc ((segment_counts T).map Prod.snd).sum
        = ((T.map Row.strategicSegment).dedup.map
            (fun s => (T.map Row.strategicSegment).count s)).sum := by
          simp [segment_counts, List.map_map, Function.comp_def, hcnt]
      _ = (T.map Row.strategicSegment).length :=
          List.sum_map_count_dedup_eq_length _
      _ = T.length := List.length_map ..

-- ===========================================================================
-- C9: every offered segment button has at least one matching row
-- ===========================================================================

/-- C9: every segment label offered by the Overview's segment selector
buttons (generated from the table's own value counts) occurs in the table,
so a UI-triggered select_segment lands on a segment with at least one
matching row, and render_segment_detail's empty-segment warning branch is
not taken. -/
theorem segment_buttons_have_rows (T : Table) (seg : String)
    (h : seg ∈ segments_sorted T) :
    (∃ r ∈ T, r.strategicSegment = seg)
      ∧ 0 < (filter_by (fun r => r.strategicSegment == seg) T).length
      ∧ render_segment_detail_empty T seg = false := by
  have hkeys : seg ∈ (segment_counts T).map Prod.fst := by
    have hp := (sortDesc_perm (fun p : String × ℕ => ((p.2 : ℚ)))
      (segment_counts T)).map Prod.fst
    exact hp.mem_iff.mp (by rwa [segments_sorted] at h)
  have hded : seg ∈ (T.map Row.strategicSegment).dedup := by
    rwa [segment_counts_keys] at hkeys
  obtain ⟨r, hr, hrs⟩ := List.mem_map.mp (List.mem_dedup.mp hded)
  have hpos : 0 < (filter_by (fun r => r.strategicSegment == seg) T).length := by
    rw [filter_by, ← List.countP_eq_length_filter]
    exact List.countP_pos_iff.mpr ⟨r, hr, by simp [hrs]⟩
  refine ⟨⟨r, hr, hrs⟩, hpos, ?_⟩
  simp only [render_segment_detail_empty, beq_eq_false_iff_ne, ne_eq]
  omega

/-- C9 witness: the concrete label "Below Standard Performance" is offered
by the sample table's button list and its detail view is nonempty. -/
theorem segment_buttons_have_rows_witness :
    render_segment_detail_empty sampleTable "Below Standard Performance"
      = false :=
  (segment_buttons_have_rows sampleTable "Below Standard Performance"
    (by decide)).2.2

end App
